import Mathlib

/-!
Verification of the Sandboxed Task Runner of `agent-sdk-boilerplate`.

The development shallowly embeds:
* the JSON string serializer used by `json.dumps(json.dumps(prompt))` in
  `run_agent.py` (CPython `json` with `ensure_ascii=True`), and the JSON string
  scanner used by `json.loads` inside the generated agent program;
* the Python double-quoted string-literal semantics that the generated
  program's source is parsed with;
* Python `str.strip()` on the captured standard output;
* the control flow of `run_agent` in `src/run_agent.py`, of the
  `/agent/run` handler in `src/examples/api_server.py`, and of
  `run_agent_in_sandbox` in `src/examples/basic_sync.py`, as trace-producing
  functions over an oracle that fixes the outcome of each remote call
  (sandbox create / file write / command run / kill).
-/

/-! ## Hexadecimal digits -/

/-- Lower-case hexadecimal digit, as produced by CPython's `"\u%04x"` formatting
in the `ensure_ascii` JSON encoder. -/
def toHexDigit (n : Nat) : Char :=
  if n < 10 then Char.ofNat (48 + n) else Char.ofNat (87 + n)

/-- Value of a hexadecimal digit; `json.loads` accepts both letter cases. -/
def hexVal (c : Char) : Option Nat :=
  if 48 ≤ c.toNat ∧ c.toNat ≤ 57 then some (c.toNat - 48)
  else if 97 ≤ c.toNat ∧ c.toNat ≤ 102 then some (c.toNat - 87)
  else if 65 ≤ c.toNat ∧ c.toNat ≤ 70 then some (c.toNat - 55)
  else none

/-- Four-digit lower-case hexadecimal rendering of `n < 0x10000`
(CPython `"\u%04x"`). -/
def toHex4 (n : Nat) : List Char :=
  [toHexDigit (n / 4096 % 16), toHexDigit (n / 256 % 16),
   toHexDigit (n / 16 % 16), toHexDigit (n % 16)]

/-- Read exactly four hexadecimal digits (the `\uXXXX` payload in
`json.loads`). -/
def parseHex4 : List Char → Option (Nat × List Char)
  | a :: b :: c :: d :: rest =>
    match hexVal a, hexVal b, hexVal c, hexVal d with
    | some x, some y, some z, some w => some (x * 4096 + y * 256 + z * 16 + w, rest)
    | _, _, _, _ => none
  | _ => none

/-! ## JSON string encoding (`json.dumps` on `str`, `ensure_ascii=True`) -/

/-- Escape of one character, following CPython's `py_encode_basestring_ascii`:
backslash, double quote and the five short escapes; other control characters
and every non-ASCII character as `\uXXXX`, astral characters as a UTF-16
surrogate pair. -/
def jsonEscapeChar (c : Char) : List Char :=
  if c = '\\' then ['\\', '\\']
  else if c = '"' then ['\\', '"']
  else if c = '\x08' then ['\\', 'b']
  else if c = '\x0c' then ['\\', 'f']
  else if c = '\n' then ['\\', 'n']
  else if c = '\x0d' then ['\\', 'r']
  else if c = '\t' then ['\\', 't']
  else if c.toNat < 0x20 then '\\' :: 'u' :: toHex4 c.toNat
  else if c.toNat < 0x7f then [c]
  else if c.toNat < 0x10000 then '\\' :: 'u' :: toHex4 c.toNat
  else
    ('\\' :: 'u' :: toHex4 (0xd800 + (c.toNat - 0x10000) / 0x400)) ++
    ('\\' :: 'u' :: toHex4 (0xdc00 + (c.toNat - 0x10000) % 0x400))

/-- Escape every character of the string body. -/
def escapeList : List Char → List Char
  | [] => []
  | c :: cs => jsonEscapeChar c ++ escapeList cs

/-- `json.dumps` of a Python `str`: the escaped body between double quotes. -/
def jsonDumps (s : List Char) : List Char :=
  '"' :: escapeList s ++ ['"']

/-- String-typed wrapper for `jsonDumps`. -/
def jsonDumpsStr (s : String) : String :=
  String.mk (jsonDumps s.data)

/-! ## JSON string decoding (`json.loads` on a string document) -/

/-- Decode a `\uXXXX` escape payload (after the `\u`), with UTF-16
surrogate-pair combination as in CPython's `py_scanstring`.  A lone surrogate
would produce a Python string that is not a sequence of Unicode scalar values;
such documents are modelled as decoding failures since no `List Char` denotes
them. -/
def parseUEscape (l : List Char) : Option (Char × List Char) :=
  match parseHex4 l with
  | none => none
  | some (n, rest2) =>
    if 0xd800 ≤ n ∧ n ≤ 0xdbff then
      match rest2 with
      | '\\' :: 'u' :: rest3 =>
        match parseHex4 rest3 with
        | none => none
        | some (m, rest4) =>
          if 0xdc00 ≤ m ∧ m ≤ 0xdfff then
            some (Char.ofNat (0x10000 + (n - 0xd800) * 0x400 + (m - 0xdc00)), rest4)
          else none
      | _ => none
    else if 0xdc00 ≤ n ∧ n ≤ 0xdfff then none
    else some (Char.ofNat n, rest2)

/-- Decode one escape sequence (the characters after a backslash), following
CPython's `py_scanstring`: the named escapes, `/`, and `\uXXXX`. -/
def parseEscape : List Char → Option (Char × List Char)
  | [] => none
  | e :: rest =>
    if e = '"' then some ('"', rest)
    else if e = '\\' then some ('\\', rest)
    else if e = '/' then some ('/', rest)
    else if e = 'b' then some ('\x08', rest)
    else if e = 'f' then some ('\x0c', rest)
    else if e = 'n' then some ('\n', rest)
    else if e = 'r' then some ('\x0d', rest)
    else if e = 't' then some ('\t', rest)
    else if e = 'u' then parseUEscape rest
    else none

theorem parseHex4_length {l : List Char} {n : Nat} {r : List Char}
    (h : parseHex4 l = some (n, r)) : r.length + 4 = l.length := by
  match l with
  | [] => simp [parseHex4] at h
  | [a] => simp [parseHex4] at h
  | [a, b] => simp [parseHex4] at h
  | [a, b, c] => simp [parseHex4] at h
  | a :: b :: c :: d :: rest =>
    simp only [parseHex4] at h
    rcases ha : hexVal a with _ | x <;> rcases hb : hexVal b with _ | y <;>
      rcases hc : hexVal c with _ | z <;> rcases hd : hexVal d with _ | w <;>
      rw [ha, hb, hc, hd] at h <;> simp at h <;> simp [← h.2, List.length]

theorem parseUEscape_length {l : List Char} {d : Char} {r : List Char}
    (h : parseUEscape l = some (d, r)) : r.length + 4 ≤ l.length := by
  rcases h4 : parseHex4 l with _ | ⟨n, rest2⟩
  · simp [parseUEscape, h4] at h
  · simp only [parseUEscape, h4] at h
    split at h
    · split at h
      · rename_i rest3
        have hl4 := parseHex4_length h4
        simp only [List.length_cons] at hl4
        rcases h5 : parseHex4 rest3 with _ | ⟨m, rest4⟩
        · simp [h5] at h
        · have hl5 := parseHex4_length h5
          simp only [h5] at h
          split at h
          · injection h with h
            injection h with h1 h2
            subst h2
            omega
          · simp at h
      · simp at h
    · split at h
      · simp at h
      · injection h with h
        injection h with h1 h2
        subst h2
        have hl4 := parseHex4_length h4
        omega

theorem parseEscape_length {l : List Char} {d : Char} {r : List Char}
    (h : parseEscape l = some (d, r)) : r.length < l.length := by
  match l with
  | [] => simp [parseEscape] at h
  | e :: rest =>
    simp only [parseEscape] at h
    split at h
    · cases h; simp
    · split at h
      · cases h; simp
      · split at h
        · cases h; simp
        · split at h
          · cases h; simp
          · split at h
            · cases h; simp
            · split at h
              · cases h; simp
              · split at h
                · cases h; simp
                · split at h
                  · cases h; simp
                  · split at h
                    · have := parseUEscape_length h
                      simp
                      omega
                    · simp at h

/-- Scan the body of a JSON string document after the opening quote, up to a
closing quote that must end the document (as `json.loads` rejects trailing
data).  Raw control characters are rejected (`strict=True`). -/
def scanChars : List Char → Option (List Char)
  | [] => none
  | c :: rest =>
    if c = '"' then if rest = [] then some [] else none
    else if c = '\\' then
      match h : parseEscape rest with
      | none => none
      | some (d, rest2) => (scanChars rest2).map fun l => d :: l
    else if c.toNat < 0x20 then none
    else (scanChars rest).map fun l => c :: l
termination_by l => l.length
decreasing_by
  · have := parseEscape_length h
    simp
    omega
  · simp

/-- `json.loads` of a document that is exactly one JSON string. -/
def jsonLoadsString : List Char → Option (List Char)
  | '"' :: rest => scanChars rest
  | _ => none

/-! ## Round trip: the decoder inverts the encoder -/

theorem char_toNat_valid (c : Char) :
    c.toNat < 55296 ∨ (57343 < c.toNat ∧ c.toNat < 1114112) := c.valid

theorem hexVal_toHexDigit {n : Nat} (h : n < 16) :
    hexVal (toHexDigit n) = some n := by
  interval_cases n <;> decide

theorem parseHex4_toHex4 {n : Nat} (h : n < 65536) (t : List Char) :
    parseHex4 (toHex4 n ++ t) = some (n, t) := by
  have h1 : n / 4096 % 16 < 16 := Nat.mod_lt _ (by omega)
  have h2 : n / 256 % 16 < 16 := Nat.mod_lt _ (by omega)
  have h3 : n / 16 % 16 < 16 := Nat.mod_lt _ (by omega)
  have h4 : n % 16 < 16 := Nat.mod_lt _ (by omega)
  simp only [toHex4, List.cons_append, List.nil_append, parseHex4,
    hexVal_toHexDigit h1, hexVal_toHexDigit h2, hexVal_toHexDigit h3,
    hexVal_toHexDigit h4]
  have : n / 4096 % 16 * 4096 + n / 256 % 16 * 256 + n / 16 % 16 * 16 + n % 16 = n := by
    omega
  rw [this]

theorem parseUEscape_toHex4 {n : Nat} (hn : n < 65536)
    (hns : ¬(55296 ≤ n ∧ n ≤ 57343)) (t : List Char) :
    parseUEscape (toHex4 n ++ t) = some (Char.ofNat n, t) := by
  have hc1 : ¬(55296 ≤ n ∧ n ≤ 56319) := by omega
  have hc2 : ¬(56320 ≤ n ∧ n ≤ 57343) := by omega
  simp only [parseUEscape, parseHex4_toHex4 hn, if_neg hc1, if_neg hc2]

theorem parseUEscape_surrogatePair {a b : Nat} (ha : 55296 ≤ a ∧ a ≤ 56319)
    (hb : 56320 ≤ b ∧ b ≤ 57343) (t : List Char) :
    parseUEscape (toHex4 a ++ ('\\' :: 'u' :: (toHex4 b ++ t)))
      = some (Char.ofNat (65536 + (a - 55296) * 1024 + (b - 56320)), t) := by
  have ha2 : a < 65536 := by omega
  have hb2 : b < 65536 := by omega
  simp only [parseUEscape, parseHex4_toHex4 ha2, if_pos ha, parseHex4_toHex4 hb2,
    if_pos hb]

theorem parseEscape_u (rest : List Char) :
    parseEscape ('u' :: rest) = parseUEscape rest := by
  simp [parseEscape]

/-- Unfolding of the scanner on a backslash whose escape sequence parses. -/
theorem scanChars_escape {rest : List Char} {d : Char} {rest2 : List Char}
    (h : parseEscape rest = some (d, rest2)) :
    scanChars ('\\' :: rest) = (scanChars rest2).map fun l => d :: l := by
  simp only [scanChars]
  rw [if_neg (show ¬('\\' = '"') by decide), if_pos trivial]
  split
  · rename_i heq
    rw [heq] at h
    cases h
  · rename_i d2 r2 heq
    rw [heq] at h
    injection h with h
    injection h with h1 h2
    subst h1
    subst h2
    rfl

/-- Unfolding of the scanner on an ordinary (unescaped, non-quote,
non-control) character. -/
theorem scanChars_literal {c : Char} (hq : ¬c = '"') (hb : ¬c = '\\')
    (hc : ¬c.toNat < 32) (t : List Char) :
    scanChars (c :: t) = (scanChars t).map fun l => c :: l := by
  simp only [scanChars, if_neg hq, if_neg hb, if_neg hc]

/-- The JSON scanner consumes the escape of one character and produces exactly
that character: the per-character round trip. -/
theorem scanChars_escapeChar (c : Char) (t : List Char) :
    scanChars (jsonEscapeChar c ++ t) = (scanChars t).map fun l => c :: l := by
  have hval := char_toNat_valid c
  by_cases h1 : c = '\\'
  · subst h1
    rw [show jsonEscapeChar '\\' ++ t = '\\' :: ('\\' :: t) from rfl,
      scanChars_escape (show parseEscape ('\\' :: t) = some ('\\', t) by
        simp [parseEscape])]
  by_cases h2 : c = '"'
  · subst h2
    rw [show jsonEscapeChar '"' ++ t = '\\' :: ('"' :: t) from rfl,
      scanChars_escape (show parseEscape ('"' :: t) = some ('"', t) by
        simp [parseEscape])]
  by_cases h3 : c = '\x08'
  · subst h3
    rw [show jsonEscapeChar '\x08' ++ t = '\\' :: ('b' :: t) from rfl,
      scanChars_escape (show parseEscape ('b' :: t) = some ('\x08', t) by
        simp [parseEscape])]
  by_cases h4 : c = '\x0c'
  · subst h4
    rw [show jsonEscapeChar '\x0c' ++ t = '\\' :: ('f' :: t) from rfl,
      scanChars_escape (show parseEscape ('f' :: t) = some ('\x0c', t) by
        simp [parseEscape])]
  by_cases h5 : c = '\n'
  · subst h5
    rw [show jsonEscapeChar '\n' ++ t = '\\' :: ('n' :: t) from rfl,
      scanChars_escape (show parseEscape ('n' :: t) = some ('\n', t) by
        simp [parseEscape])]
  by_cases h6 : c = '\x0d'
  · subst h6
    rw [show jsonEscapeChar '\x0d' ++ t = '\\' :: ('r' :: t) from rfl,
      scanChars_escape (show parseEscape ('r' :: t) = some ('\x0d', t) by
        simp [parseEscape])]
  by_cases h7 : c = '\t'
  · subst h7
    rw [show jsonEscapeChar '\t' ++ t = '\\' :: ('t' :: t) from rfl,
      scanChars_escape (show parseEscape ('t' :: t) = some ('\t', t) by
        simp [parseEscape])]
  by_cases h8 : c.toNat < 32
  · have hrw : jsonEscapeChar c = '\\' :: 'u' :: toHex4 c.toNat := by
      simp only [jsonEscapeChar, if_neg h1, if_neg h2, if_neg h3, if_neg h4,
        if_neg h5, if_neg h6, if_neg h7, if_pos h8]
    have hpe : parseEscape ('u' :: (toHex4 c.toNat ++ t)) = some (c, t) := by
      rw [parseEscape_u,
        parseUEscape_toHex4 (n := c.toNat) (by omega) (by omega),
        Char.ofNat_toNat]
    rw [hrw, List.cons_append, List.cons_append, scanChars_escape hpe]
  by_cases h9 : c.toNat < 127
  · have hrw : jsonEscapeChar c = [c] := by
      simp only [jsonEscapeChar, if_neg h1, if_neg h2, if_neg h3, if_neg h4,
        if_neg h5, if_neg h6, if_neg h7, if_neg h8, if_pos h9]
    rw [hrw, List.cons_append, List.nil_append, scanChars_literal h2 h1 h8]
  by_cases h10 : c.toNat < 65536
  · have hrw : jsonEscapeChar c = '\\' :: 'u' :: toHex4 c.toNat := by
      simp only [jsonEscapeChar, if_neg h1, if_neg h2, if_neg h3, if_neg h4,
        if_neg h5, if_neg h6, if_neg h7, if_neg h8, if_neg h9, if_pos h10]
    have hpe : parseEscape ('u' :: (toHex4 c.toNat ++ t)) = some (c, t) := by
      rw [parseEscape_u, parseUEscape_toHex4 (n := c.toNat) h10 (by omega),
        Char.ofNat_toNat]
    rw [hrw, List.cons_append, List.cons_append, scanChars_escape hpe]
  · have hrw : jsonEscapeChar c =
        ('\\' :: 'u' :: toHex4 (55296 + (c.toNat - 65536) / 1024)) ++
        ('\\' :: 'u' :: toHex4 (56320 + (c.toNat - 65536) % 1024)) := by
      simp only [jsonEscapeChar, if_neg h1, if_neg h2, if_neg h3, if_neg h4,
        if_neg h5, if_neg h6, if_neg h7, if_neg h8, if_neg h9, if_neg h10]
    have e1 : 55296 + (c.toNat - 65536) / 1024 = 55232 + c.toNat / 1024 := by
      omega
    have e2 : 56320 + (c.toNat - 65536) % 1024 = 56320 + c.toNat % 1024 := by
      omega
    have hpe : parseEscape ('u' :: (toHex4 (55232 + c.toNat / 1024) ++
        ('\\' :: 'u' :: (toHex4 (56320 + c.toNat % 1024) ++ t)))) = some (c, t) := by
      have hv : 65536 + (55232 + c.toNat / 1024 - 55296) * 1024 +
          (56320 + c.toNat % 1024 - 56320) = c.toNat := by omega
      rw [parseEscape_u,
        parseUEscape_surrogatePair ⟨by omega, by omega⟩ ⟨by omega, by omega⟩ t,
        hv, Char.ofNat_toNat]
    rw [hrw, e1, e2, List.append_assoc, List.cons_append, List.cons_append,
      List.cons_append, List.cons_append, scanChars_escape hpe]

theorem scanChars_escapeList (p : List Char) :
    scanChars (escapeList p ++ ['"']) = some p := by
  induction p with
  | nil => simp [escapeList, scanChars]
  | cons c p ih =>
    simp only [escapeList, List.append_assoc]
    rw [scanChars_escapeChar]
    simp [ih]

/-- Decode of encode is the identity on strings: `json.loads` applied to a
document produced by `json.dumps` recovers the original string. -/
theorem jsonLoads_jsonDumps (p : List Char) :
    jsonLoadsString (jsonDumps p) = some p := by
  simp only [jsonDumps, jsonLoadsString]
  exact scanChars_escapeList p

/-! ## Python double-quoted string-literal semantics

The generated agent program embeds the encoded prompt as a double-quoted
Python string literal; the Python parser decodes it with the following escape
rules (PEP 3101 / CPython tokenizer + `decode_unicode_with_escapes`). -/

/-- Read exactly two hexadecimal digits (the `\xXX` payload). -/
def parseHex2 : List Char → Option (Nat × List Char)
  | a :: b :: rest =>
    match hexVal a, hexVal b with
    | some x, some y => some (x * 16 + y, rest)
    | _, _ => none
  | _ => none

/-- Read exactly eight hexadecimal digits (the `\UXXXXXXXX` payload). -/
def parseHex8 (l : List Char) : Option (Nat × List Char) :=
  match parseHex4 l with
  | none => none
  | some (hi, rest) =>
    match parseHex4 rest with
    | none => none
    | some (lo, rest2) => some (hi * 65536 + lo, rest2)

/-- Value of an octal digit. -/
def octVal (c : Char) : Option Nat :=
  if 48 ≤ c.toNat ∧ c.toNat ≤ 55 then some (c.toNat - 48) else none

/-- After one octal digit of value `d1`, consume up to two more octal digits
(Python octal escapes are one to three digits long). -/
def parseOctRest (d1 : Nat) : List Char → Nat × List Char
  | [] => (d1, [])
  | c :: rest =>
    match octVal c with
    | none => (d1, c :: rest)
    | some d2 =>
      match rest with
      | [] => (d1 * 8 + d2, [])
      | c2 :: rest2 =>
        match octVal c2 with
        | none => (d1 * 8 + d2, c2 :: rest2)
        | some d3 => (d1 * 64 + d2 * 8 + d3, rest2)

/-- Decode a Python `\xXX` escape payload. -/
def pyHexEscape (rest : List Char) : Option (List Char × List Char) :=
  match parseHex2 rest with
  | none => none
  | some (n, rest2) => some ([Char.ofNat n], rest2)

/-- Decode a Python `\uXXXX` escape payload.  A lone surrogate produces a
Python string that is not a sequence of Unicode scalar values; no `List Char`
denotes it, so it is modelled as a failure — it cannot arise from the program
generator's output. -/
def pyUEscape (rest : List Char) : Option (List Char × List Char) :=
  match parseHex4 rest with
  | none => none
  | some (n, rest2) =>
    if 55296 ≤ n ∧ n ≤ 57343 then none
    else some ([Char.ofNat n], rest2)

/-- Decode a Python `\UXXXXXXXX` escape payload (same surrogate caveat as
`pyUEscape`; values above the Unicode range are a syntax error). -/
def pyU8Escape (rest : List Char) : Option (List Char × List Char) :=
  match parseHex8 rest with
  | none => none
  | some (n, rest2) =>
    if n < 1114112 ∧ ¬(55296 ≤ n ∧ n ≤ 57343) then some ([Char.ofNat n], rest2)
    else none

/-- Decode a Python octal escape, or keep an unknown escape verbatim as
CPython does. -/
def pyOctOrVerbatim (e : Char) (rest : List Char) :
    Option (List Char × List Char) :=
  match octVal e with
  | some d1 => some ([Char.ofNat (parseOctRest d1 rest).1], (parseOctRest d1 rest).2)
  | none => some (['\\', e], rest)

/-- Decode one Python escape sequence (the characters after a backslash).
Unknown escapes are kept verbatim, as CPython does; `\`-newline is a line
continuation; `\N` escapes need the Unicode name table and are modelled as
failures (they cannot arise from the program generator's output). -/
def pyEscapeSeq : List Char → Option (List Char × List Char)
  | [] => none
  | e :: rest =>
    if e = '\n' then some ([], rest)
    else if e = '\\' then some (['\\'], rest)
    else if e = '\x27' then some (['\x27'], rest)
    else if e = '"' then some (['"'], rest)
    else if e = 'a' then some (['\x07'], rest)
    else if e = 'b' then some (['\x08'], rest)
    else if e = 'f' then some (['\x0c'], rest)
    else if e = 'n' then some (['\n'], rest)
    else if e = 'r' then some (['\x0d'], rest)
    else if e = 't' then some (['\t'], rest)
    else if e = 'v' then some (['\x0b'], rest)
    else if e = 'x' then pyHexEscape rest
    else if e = 'u' then pyUEscape rest
    else if e = 'U' then pyU8Escape rest
    else if e = 'N' then none
    else pyOctOrVerbatim e rest

theorem parseHex2_length {l : List Char} {n : Nat} {r : List Char}
    (h : parseHex2 l = some (n, r)) : r.length + 2 = l.length := by
  match l with
  | [] => simp [parseHex2] at h
  | [a] => simp [parseHex2] at h
  | a :: b :: rest =>
    simp only [parseHex2] at h
    rcases ha : hexVal a with _ | x <;> rcases hb : hexVal b with _ | y <;>
      rw [ha, hb] at h <;> simp at h <;> simp [← h.2, List.length]

theorem parseHex8_length {l : List Char} {n : Nat} {r : List Char}
    (h : parseHex8 l = some (n, r)) : r.length + 8 = l.length := by
  unfold parseHex8 at h
  rcases h4 : parseHex4 l with _ | ⟨hi, rest⟩ <;> simp only [h4] at h
  · simp at h
  · rcases h5 : parseHex4 rest with _ | ⟨lo, rest2⟩ <;> simp only [h5] at h
    · simp at h
    · injection h with h
      injection h with h1 h2
      subst h2
      have := parseHex4_length h4
      have := parseHex4_length h5
      omega

theorem parseOctRest_length (d1 : Nat) (l : List Char) :
    (parseOctRest d1 l).2.length ≤ l.length := by
  match l with
  | [] => simp [parseOctRest]
  | c :: rest =>
    simp only [parseOctRest]
    rcases hc : octVal c with _ | d2 <;> simp only [hc]
    · simp
    · match rest with
      | [] => simp
      | c2 :: rest2 =>
        rcases hc2 : octVal c2 with _ | d3 <;> simp only [hc2] <;> simp <;> omega

theorem pyHexEscape_length {l : List Char} {ds : List Char} {r : List Char}
    (h : pyHexEscape l = some (ds, r)) : r.length + 2 = l.length := by
  unfold pyHexEscape at h
  rcases h2 : parseHex2 l with _ | ⟨n, rest2⟩ <;> simp only [h2] at h
  · simp at h
  · injection h with h
    injection h with h1 hr
    subst hr
    exact parseHex2_length h2

theorem pyUEscape_length {l : List Char} {ds : List Char} {r : List Char}
    (h : pyUEscape l = some (ds, r)) : r.length + 4 = l.length := by
  unfold pyUEscape at h
  rcases h4 : parseHex4 l with _ | ⟨n, rest2⟩ <;> simp only [h4] at h
  · simp at h
  · split at h
    · simp at h
    · injection h with h
      injection h with h1 hr
      subst hr
      exact parseHex4_length h4

theorem pyU8Escape_length {l : List Char} {ds : List Char} {r : List Char}
    (h : pyU8Escape l = some (ds, r)) : r.length + 8 = l.length := by
  unfold pyU8Escape at h
  rcases h8 : parseHex8 l with _ | ⟨n, rest2⟩ <;> simp only [h8] at h
  · simp at h
  · split at h
    · injection h with h
      injection h with h1 hr
      subst hr
      exact parseHex8_length h8
    · simp at h

theorem pyOctOrVerbatim_length {e : Char} {l : List Char} {ds : List Char}
    {r : List Char} (h : pyOctOrVerbatim e l = some (ds, r)) :
    r.length ≤ l.length := by
  unfold pyOctOrVerbatim at h
  rcases ho : octVal e with _ | d1 <;> simp only [ho] at h
  · injection h with h
    injection h with h1 hr
    subst hr
    exact Nat.le_refl _
  · injection h with h
    injection h with h1 hr
    subst hr
    exact parseOctRest_length d1 l

theorem pyEscapeSeq_length {l : List Char} {ds : List Char} {r : List Char}
    (h : pyEscapeSeq l = some (ds, r)) : r.length < l.length := by
  match l with
  | [] => simp [pyEscapeSeq] at h
  | e :: rest =>
    simp only [pyEscapeSeq] at h
    by_cases c1 : e = '\n'
    · simp only [if_pos c1] at h
      injection h with h; injection h with h1 h2; subst h2; simp
    simp only [if_neg c1] at h
    by_cases c2 : e = '\\'
    · simp only [if_pos c2] at h
      injection h with h; injection h with h1 h2; subst h2; simp
    simp only [if_neg c2] at h
    by_cases c3 : e = '\x27'
    · simp only [if_pos c3] at h
      injection h with h; injection h with h1 h2; subst h2; simp
    simp only [if_neg c3] at h
    by_cases c4 : e = '"'
    · simp only [if_pos c4] at h
      injection h with h; injection h with h1 h2; subst h2; simp
    simp only [if_neg c4] at h
    by_cases c5 : e = 'a'
    · simp only [if_pos c5] at h
      injection h with h; injection h with h1 h2; subst h2; simp
    simp only [if_neg c5] at h
    by_cases c6 : e = 'b'
    · simp only [if_pos c6] at h
      injection h with h; injection h with h1 h2; subst h2; simp
    simp only [if_neg c6] at h
    by_cases c7 : e = 'f'
    · simp only [if_pos c7] at h
      injection h with h; injection h with h1 h2; subst h2; simp
    simp only [if_neg c7] at h
    by_cases c8 : e = 'n'
    · simp only [if_pos c8] at h
      injection h with h; injection h with h1 h2; subst h2; simp
    simp only [if_neg c8] at h
    by_cases c9 : e = 'r'
    · simp only [if_pos c9] at h
      injection h with h; injection h with h1 h2; subst h2; simp
    simp only [if_neg c9] at h
    by_cases c10 : e = 't'
    · simp only [if_pos c10] at h
      injection h with h; injection h with h1 h2; subst h2; simp
    simp only [if_neg c10] at h
    by_cases c11 : e = 'v'
    · simp only [if_pos c11] at h
      injection h with h; injection h with h1 h2; subst h2; simp
    simp only [if_neg c11] at h
    by_cases c12 : e = 'x'
    · simp only [if_pos c12] at h
      have := pyHexEscape_length h
      simp only [List.length_cons]
      omega
    simp only [if_neg c12] at h
    by_cases c13 : e = 'u'
    · simp only [if_pos c13] at h
      have := pyUEscape_length h
      simp only [List.length_cons]
      omega
    simp only [if_neg c13] at h
    by_cases c14 : e = 'U'
    · simp only [if_pos c14] at h
      have := pyU8Escape_length h
      simp only [List.length_cons]
      omega
    simp only [if_neg c14] at h
    by_cases c15 : e = 'N'
    · simp only [if_pos c15] at h
      simp at h
    simp only [if_neg c15] at h
    have := pyOctOrVerbatim_length h
    simp only [List.length_cons]
    omega

/-- Scan the body of a double-quoted Python string literal after the opening
quote, up to a closing quote that must end the text.  Raw newlines terminate
the source line and are therefore rejected inside the literal. -/
def pyScan : List Char → Option (List Char)
  | [] => none
  | c :: rest =>
    if c = '"' then if rest = [] then some [] else none
    else if c = '\\' then
      match h : pyEscapeSeq rest with
      | none => none
      | some (ds, rest2) => (pyScan rest2).map fun l => ds ++ l
    else if c = '\n' ∨ c = '\x0d' then none
    else (pyScan rest).map fun l => c :: l
termination_by l => l.length
decreasing_by
  · have := pyEscapeSeq_length h
    simp
    omega
  · simp

/-- Evaluation of a double-quoted Python string literal: the Python parser's
view of the text the generator splices into the program. -/
def pyDecodeLiteral : List Char → Option (List Char)
  | '"' :: rest => pyScan rest
  | _ => none

/-- Unfolding of the literal scanner on a backslash whose escape sequence
parses. -/
theorem pyScan_escape {rest : List Char} {ds : List Char} {rest2 : List Char}
    (h : pyEscapeSeq rest = some (ds, rest2)) :
    pyScan ('\\' :: rest) = (pyScan rest2).map fun l => ds ++ l := by
  simp only [pyScan]
  rw [if_neg (show ¬('\\' = '"') by decide), if_pos trivial]
  split
  · rename_i heq
    rw [heq] at h
    cases h
  · rename_i d2 r2 heq
    rw [heq] at h
    injection h with h
    injection h with h1 h2
    subst h1
    subst h2
    rfl

/-- Unfolding of the literal scanner on an ordinary character. -/
theorem pyScan_literal {c : Char} (hq : ¬c = '"') (hb : ¬c = '\\')
    (hn : ¬(c = '\n' ∨ c = '\x0d')) (t : List Char) :
    pyScan (c :: t) = (pyScan t).map fun l => c :: l := by
  simp only [pyScan, if_neg hq, if_neg hb, if_neg hn]

theorem toHexDigit_printable {k : Nat} (h : k < 16) :
    32 ≤ (toHexDigit k).toNat ∧ (toHexDigit k).toNat ≤ 126 := by
  interval_cases k <;> decide

theorem toHex4_printable {n : Nat} {d : Char} (hd : d ∈ toHex4 n) :
    32 ≤ d.toNat ∧ d.toNat ≤ 126 := by
  have h1 : n / 4096 % 16 < 16 := Nat.mod_lt _ (by omega)
  have h2 : n / 256 % 16 < 16 := Nat.mod_lt _ (by omega)
  have h3 : n / 16 % 16 < 16 := Nat.mod_lt _ (by omega)
  have h4 : n % 16 < 16 := Nat.mod_lt _ (by omega)
  simp only [toHex4, List.mem_cons, List.not_mem_nil, or_false] at hd
  rcases hd with rfl | rfl | rfl | rfl
  · exact toHexDigit_printable h1
  · exact toHexDigit_printable h2
  · exact toHexDigit_printable h3
  · exact toHexDigit_printable h4

/-- With `ensure_ascii=True`, every character the JSON encoder emits is
printable ASCII. -/
theorem jsonEscapeChar_printable (c : Char) {d : Char}
    (hd : d ∈ jsonEscapeChar c) : 32 ≤ d.toNat ∧ d.toNat ≤ 126 := by
  by_cases h1 : c = '\\'
  · subst h1; simp [jsonEscapeChar] at hd; subst hd; decide
  by_cases h2 : c = '"'
  · subst h2; simp [jsonEscapeChar] at hd
    rcases hd with rfl | rfl <;> decide
  by_cases h3 : c = '\x08'
  · subst h3; simp [jsonEscapeChar] at hd
    rcases hd with rfl | rfl <;> decide
  by_cases h4 : c = '\x0c'
  · subst h4; simp [jsonEscapeChar] at hd
    rcases hd with rfl | rfl <;> decide
  by_cases h5 : c = '\n'
  · subst h5; simp [jsonEscapeChar] at hd
    rcases hd with rfl | rfl <;> decide
  by_cases h6 : c = '\x0d'
  · subst h6; simp [jsonEscapeChar] at hd
    rcases hd with rfl | rfl <;> decide
  by_cases h7 : c = '\t'
  · subst h7; simp [jsonEscapeChar] at hd
    rcases hd with rfl | rfl <;> decide
  by_cases h8 : c.toNat < 32
  · have hrw : jsonEscapeChar c = '\\' :: 'u' :: toHex4 c.toNat := by
      simp only [jsonEscapeChar, if_neg h1, if_neg h2, if_neg h3, if_neg h4,
        if_neg h5, if_neg h6, if_neg h7, if_pos h8]
    rw [hrw] at hd
    simp only [List.mem_cons] at hd
    rcases hd with rfl | rfl | hd
    · decide
    · decide
    · exact toHex4_printable hd
  by_cases h9 : c.toNat < 127
  · have hrw : jsonEscapeChar c = [c] := by
      simp only [jsonEscapeChar, if_neg h1, if_neg h2, if_neg h3, if_neg h4,
        if_neg h5, if_neg h6, if_neg h7, if_neg h8, if_pos h9]
    rw [hrw] at hd
    simp only [List.mem_singleton] at hd
    subst hd
    omega
  by_cases h10 : c.toNat < 65536
  · have hrw : jsonEscapeChar c = '\\' :: 'u' :: toHex4 c.toNat := by
      simp only [jsonEscapeChar, if_neg h1, if_neg h2, if_neg h3, if_neg h4,
        if_neg h5, if_neg h6, if_neg h7, if_neg h8, if_neg h9, if_pos h10]
    rw [hrw] at hd
    simp only [List.mem_cons] at hd
    rcases hd with rfl | rfl | hd
    · decide
    · decide
    · exact toHex4_printable hd
  · have hrw : jsonEscapeChar c =
        ('\\' :: 'u' :: toHex4 (55296 + (c.toNat - 65536) / 1024)) ++
        ('\\' :: 'u' :: toHex4 (56320 + (c.toNat - 65536) % 1024)) := by
      simp only [jsonEscapeChar, if_neg h1, if_neg h2, if_neg h3, if_neg h4,
        if_neg h5, if_neg h6, if_neg h7, if_neg h8, if_neg h9, if_neg h10]
    rw [hrw] at hd
    simp only [List.mem_append, List.mem_cons] at hd
    rcases hd with (rfl | rfl | hd) | (rfl | rfl | hd)
    · decide
    · decide
    · exact toHex4_printable hd
    · decide
    · decide
    · exact toHex4_printable hd

theorem escapeList_printable {p : List Char} {d : Char}
    (hd : d ∈ escapeList p) : 32 ≤ d.toNat ∧ d.toNat ≤ 126 := by
  induction p with
  | nil => simp [escapeList] at hd
  | cons c p ih =>
    simp only [escapeList, List.mem_append] at hd
    rcases hd with hd | hd
    · exact jsonEscapeChar_printable c hd
    · exact ih hd

theorem jsonDumps_printable {p : List Char} {d : Char} (hd : d ∈ jsonDumps p) :
    32 ≤ d.toNat ∧ d.toNat ≤ 126 := by
  simp only [jsonDumps, List.mem_cons, List.mem_append, List.mem_singleton,
    List.not_mem_nil, or_false] at hd
  rcases hd with (rfl | hd) | rfl
  · decide
  · exact escapeList_printable hd
  · decide

/-- The Python literal scanner consumes the JSON escape of one printable-ASCII
character and produces exactly that character. -/
theorem pyScan_escapeChar {c : Char} (hc : 32 ≤ c.toNat ∧ c.toNat ≤ 126)
    (t : List Char) :
    pyScan (jsonEscapeChar c ++ t) = (pyScan t).map fun l => c :: l := by
  by_cases h1 : c = '\\'
  · subst h1
    rw [show jsonEscapeChar '\\' ++ t = '\\' :: ('\\' :: t) from rfl,
      pyScan_escape (show pyEscapeSeq ('\\' :: t) = some (['\\'], t) by
        simp [pyEscapeSeq])]
    rfl
  by_cases h2 : c = '"'
  · subst h2
    rw [show jsonEscapeChar '"' ++ t = '\\' :: ('"' :: t) from rfl,
      pyScan_escape (show pyEscapeSeq ('"' :: t) = some (['"'], t) by
        simp [pyEscapeSeq])]
    rfl
  · have h3 : ¬c = '\x08' := by rintro rfl; exact absurd hc (by decide)
    have h4 : ¬c = '\x0c' := by rintro rfl; exact absurd hc (by decide)
    have h5 : ¬c = '\n' := by rintro rfl; exact absurd hc (by decide)
    have h6 : ¬c = '\x0d' := by rintro rfl; exact absurd hc (by decide)
    have h7 : ¬c = '\t' := by rintro rfl; exact absurd hc (by decide)
    have h8 : ¬c.toNat < 32 := by omega
    have h9 : c.toNat < 127 := by omega
    have hrw : jsonEscapeChar c = [c] := by
      simp only [jsonEscapeChar, if_neg h1, if_neg h2, if_neg h3, if_neg h4,
        if_neg h5, if_neg h6, if_neg h7, if_neg h8, if_pos h9]
    rw [hrw, List.cons_append, List.nil_append,
      pyScan_literal h2 h1 (by simp [h5, h6])]

theorem pyScan_escapeList {p : List Char}
    (hp : ∀ c ∈ p, 32 ≤ c.toNat ∧ c.toNat ≤ 126) :
    pyScan (escapeList p ++ ['"']) = some p := by
  induction p with
  | nil => simp [escapeList, pyScan]
  | cons c p ih =>
    simp only [escapeList, List.append_assoc]
    rw [pyScan_escapeChar (hp c (by simp)),
      ih (fun d hd => hp d (by simp [hd]))]
    rfl

/-- A `json.dumps` document whose content is printable ASCII reads back, as a
Python double-quoted literal, to exactly the JSON document text. -/
theorem pyDecode_jsonDumps {q : List Char}
    (hq : ∀ c ∈ q, 32 ≤ c.toNat ∧ c.toNat ≤ 126) :
    pyDecodeLiteral (jsonDumps q) = some q := by
  simp only [jsonDumps, pyDecodeLiteral]
  exact pyScan_escapeList hq

/-- The doubly-encoded prompt is a well-formed Python string literal whose
value is the singly-encoded JSON document. -/
theorem pyDecode_doubleDumps (p : List Char) :
    pyDecodeLiteral (jsonDumps (jsonDumps p)) = some (jsonDumps p) :=
  pyDecode_jsonDumps (fun _ hc => jsonDumps_printable hc)

/-! ## Python `str.strip()` -/

/-- Unicode whitespace as recognised by Python's `str.strip()`
(`Py_UNICODE_ISSPACE`). -/
def pyIsSpace (c : Char) : Bool :=
  let n := c.toNat
  (9 ≤ n && n ≤ 13) || (28 ≤ n && n ≤ 31) || n == 32 || n == 133 || n == 160 ||
  n == 5760 || (8192 ≤ n && n ≤ 8202) || n == 8232 || n == 8233 || n == 8239 ||
  n == 8287 || n == 12288

/-- Python `str.strip()`: drop whitespace from both ends. -/
def pyStrip (s : String) : String :=
  String.mk (((s.data.dropWhile pyIsSpace).reverse.dropWhile pyIsSpace).reverse)

/-! ## The generated agent programs

The exact program texts written into the sandbox, as functions of the task
fields that are interpolated into them. -/

/-- Fixed head of the program generated by `run_agent` in `run_agent.py`,
up to the argument of `json.loads`. -/
def agentCodePre : String :=
  "\nimport asyncio\nimport json\nfrom claude_agent_sdk import query\n\nasync def main():\n    result = None\n    prompt = json.loads("

/-- Fixed tail of the program generated by `run_agent` in `run_agent.py`. -/
def agentCodePost : String :=
  ")\n    async for msg in query(prompt=prompt):\n        if hasattr(msg, \"result\"):\n            result = msg.result\n    if result:\n        print(result)\n\nasyncio.run(main())\n"

/-- The agent program generated by `run_agent` in `run_agent.py`: the prompt
is spliced in as `json.dumps(json.dumps(prompt))`. -/
def agentCode (prompt : String) : String :=
  agentCodePre ++ String.mk (jsonDumps (jsonDumps prompt.data)) ++ agentCodePost

/-- `json.dumps` of a list of strings (default separator is a comma and a
space), used for the `allowed_tools` list in `api_server.py`. -/
def jsonDumpsJoin : List String → List Char
  | [] => []
  | [t] => jsonDumps t.data
  | t :: ts => jsonDumps t.data ++ ',' :: ' ' :: jsonDumpsJoin ts

/-- `json.dumps` of a JSON array of strings. -/
def jsonDumpsArr (ts : List String) : List Char :=
  '[' :: jsonDumpsJoin ts ++ [']']

/-- Fixed pieces of the program generated by the `/agent/run` handler in
`api_server.py`. -/
def apiCodePre : String :=
  "\nimport asyncio\nimport json\nfrom claude_agent_sdk import query, ClaudeAgentOptions\n\nasync def main():\n    result = None\n    prompt = json.loads("

def apiCodeMid1 : String :=
  ")\n    allowed_tools = json.loads("

def apiCodeMid2 : String :=
  ")\n\n    async for msg in query(\n        prompt=prompt,\n        options=ClaudeAgentOptions(\n            model=\""

def apiCodePost : String :=
  "\",\n            allowed_tools=allowed_tools,\n            max_turns=20\n        )\n    ):\n        if hasattr(msg, \"result\"):\n            result = msg.result\n\n    if result:\n        print(result)\n\nasyncio.run(main())\n"

/-- The agent program generated by `api_server.py`: prompt and tool list are
spliced in via double `json.dumps`; the model name is interpolated raw. -/
def apiAgentCode (prompt model : String) (tools : List String) : String :=
  apiCodePre ++ String.mk (jsonDumps (jsonDumps prompt.data)) ++ apiCodeMid1 ++
    String.mk (jsonDumps (jsonDumpsArr tools)) ++ apiCodeMid2 ++ model ++
    apiCodePost

/-- The fixed agent program written by `basic_sync.py` (a plain string in the
source; its inner braces belong to f-strings that run inside the sandbox). -/
def basicSyncAgentCode : String :=
  "\nimport asyncio\nfrom claude_agent_sdk import query\n\nasync def main():\n    print(\"Agent starting...\")\n    async for msg in query(prompt=\"What is 2 + 2? Reply in exactly 5 words.\"):\n        if hasattr(msg, \"content\"):\n            for block in msg.content:\n                if hasattr(block, \"text\"):\n                    print(f\"Agent response: \x7bblock.text\x7d\")\n        elif hasattr(msg, \"result\"):\n            print(f\"Final result: \x7bmsg.result\x7d\")\n\nasyncio.run(main())\n"

/-! ## Semantics of the generated program's message loop -/

/-- A message yielded by the agent capability, as the generated program sees
it: it may or may not expose a `result` attribute. -/
structure AgentMsg where
  hasResult : Bool
  result : String

/-- The generated program's loop: `result` keeps the last message's `result`
attribute, if any. -/
def queryLoop (msgs : List AgentMsg) : Option String :=
  msgs.foldl (fun acc m => if m.hasResult then some m.result else acc) none

/-- Standard output of the generated program: `print(result)` only when
`result` is truthy (`if result:`). -/
def agentStdout (msgs : List AgentMsg) : String :=
  match queryLoop msgs with
  | none => ""
  | some r => if r = "" then "" else r ++ "\n"

/-! ## The Sandboxed Task Runner control flow

Each runner is embedded as a trace-producing function over a `SandboxWorld`
oracle fixing the outcome of every remote call.  Python `try/finally`
semantics are modelled exactly: the `finally` block always runs, and an
exception raised inside it replaces any exception in flight. -/

/-- Result object of the provisioning service's command-run call
(`sandbox.commands.run`). -/
structure RunResult where
  exit_code : Int
  stdout : String
  stderr : String

/-- Python exceptions distinguishable in this embedding.  `valueError` models
the `ValueError` raised on missing configuration; `runtimeError` the
`RuntimeError` raised on a non-zero exit; `sdkError` an exception raised by
an SDK call (provisioning, upload, execution, or release failure);
`timeoutError` the SDK's timeout exception; `httpError` FastAPI's
`HTTPException`. -/
inductive PyError where
  | valueError : String → PyError
  | runtimeError : String → PyError
  | sdkError : String → PyError
  | timeoutError : String → PyError
  | httpError : Nat → String → PyError
deriving DecidableEq, Repr

/-- Remote calls observable at the provider boundary. -/
inductive Event where
  | create : String → Nat → List (String × String) → Event
  | write : String → String → Event
  | run : String → Nat → Event
  | kill : Event
deriving DecidableEq, Repr

instance {ε α : Type} [DecidableEq ε] [DecidableEq α] :
    DecidableEq (Except ε α) := fun x y =>
  match x, y with
  | Except.ok a, Except.ok b =>
    if h : a = b then Decidable.isTrue (by rw [h])
    else Decidable.isFalse (by intro he; injection he; exact h (by assumption))
  | Except.error a, Except.error b =>
    if h : a = b then Decidable.isTrue (by rw [h])
    else Decidable.isFalse (by intro he; injection he; exact h (by assumption))
  | Except.ok _, Except.error _ => Decidable.isFalse (by intro he; injection he)
  | Except.error _, Except.ok _ => Decidable.isFalse (by intro he; injection he)

/-- Oracle: the outcome of each remote call in one run.  `none` means the
call returns normally; `some e` means it raises `e`. -/
structure SandboxWorld where
  createOutcome : Option PyError
  writeOutcome : Option PyError
  runOutcome : Except PyError RunResult
  killOutcome : Option PyError

/-- Python truthiness of `os.getenv`: `None` and the empty string are falsy. -/
def falsyEnv : Option String → Bool
  | none => true
  | some s => s == ""

/-- The environment configuration read by `run_agent.py`. -/
structure Env where
  template_id : Option String
  oauth_token : Option String

/-- The control flow of `run_agent` in `src/run_agent.py`: validate the two
environment values, create the sandbox with the token in its environment
variables, then inside `try`: write the generated program, run it, check the
exit code; in `finally`: kill the sandbox. -/
def run_agent (env : Env) (prompt : String) (timeout : Nat) (w : SandboxWorld) :
    Except PyError String × List Event :=
  if falsyEnv env.template_id then
    (Except.error (PyError.valueError "E2B_TEMPLATE_ID not set. Run: ./setup.sh"), [])
  else if falsyEnv env.oauth_token then
    (Except.error (PyError.valueError "CLAUDE_CODE_OAUTH_TOKEN not set. Run: ./setup.sh"), [])
  else
    let createEvt := Event.create (env.template_id.getD "") timeout
      [("CLAUDE_CODE_OAUTH_TOKEN", env.oauth_token.getD "")]
    match w.createOutcome with
    | some e => (Except.error e, [createEvt])
    | none =>
      let body : Except PyError String × List Event :=
        match w.writeOutcome with
        | some e =>
          (Except.error e, [Event.write "/home/user/agent.py" (agentCode prompt)])
        | none =>
          match w.runOutcome with
          | Except.error e =>
            (Except.error e,
             [Event.write "/home/user/agent.py" (agentCode prompt),
              Event.run "python3 /home/user/agent.py" timeout])
          | Except.ok r =>
            if r.exit_code ≠ 0 then
              (Except.error (PyError.runtimeError ("Agent failed: " ++ r.stderr)),
               [Event.write "/home/user/agent.py" (agentCode prompt),
                Event.run "python3 /home/user/agent.py" timeout])
            else
              (Except.ok (pyStrip r.stdout),
               [Event.write "/home/user/agent.py" (agentCode prompt),
                Event.run "python3 /home/user/agent.py" timeout])
      match w.killOutcome with
      | some ke => (Except.error ke, createEvt :: body.2 ++ [Event.kill])
      | none => (body.1, createEvt :: body.2 ++ [Event.kill])

/-- Python `str(e)` on the embedded exceptions. -/
def errStr : PyError → String
  | PyError.valueError m => m
  | PyError.runtimeError m => m
  | PyError.sdkError m => m
  | PyError.timeoutError m => m
  | PyError.httpError _ m => m

/-- Configuration of the FastAPI server. -/
structure ApiConfig where
  template_id : Option String
  oauth_token : Option String
  e2b_api_key : Option String

/-- Request body of `/agent/run`. -/
structure AgentRequest where
  prompt : String
  model : String
  timeout : Nat
  allowed_tools : List String

/-- Response body of `/agent/run`. -/
structure AgentResponse where
  success : Bool
  result : Option String
  error : Option String
  sandbox_id : Option String
deriving DecidableEq, Repr

/-- The control flow of the `/agent/run` handler in
`src/examples/api_server.py`: configuration check raising `HTTPException`;
then `try`: create, write, run, build a response; `except`: turn any
exception into an error response (with no sandbox id when creation itself
failed); `finally`: kill the sandbox if one exists — an exception raised by
the kill replaces the response. -/
def api_run_agent (cfg : ApiConfig) (req : AgentRequest) (sid : String)
    (w : SandboxWorld) : Except PyError AgentResponse × List Event :=
  if falsyEnv cfg.template_id || falsyEnv cfg.oauth_token ||
      falsyEnv cfg.e2b_api_key then
    (Except.error (PyError.httpError 500 "Server not configured. Run onboarding.py"), [])
  else
    let code := apiAgentCode req.prompt req.model req.allowed_tools
    let createEvt := Event.create (cfg.template_id.getD "") req.timeout
      [("CLAUDE_CODE_OAUTH_TOKEN", cfg.oauth_token.getD "")]
    match w.createOutcome with
    | some e => (Except.ok ⟨false, none, some (errStr e), none⟩, [createEvt])
    | none =>
      let body : AgentResponse × List Event :=
        match w.writeOutcome with
        | some e =>
          (⟨false, none, some (errStr e), some sid⟩,
           [Event.write "/home/user/agent.py" code])
        | none =>
          match w.runOutcome with
          | Except.error e =>
            (⟨false, none, some (errStr e), some sid⟩,
             [Event.write "/home/user/agent.py" code,
              Event.run "python3 /home/user/agent.py" req.timeout])
          | Except.ok r =>
            if r.exit_code ≠ 0 then
              (⟨false, none, some (if r.stderr == "" then "Agent failed" else r.stderr),
                 some sid⟩,
               [Event.write "/home/user/agent.py" code,
                Event.run "python3 /home/user/agent.py" req.timeout])
            else
              (⟨true, some (pyStrip r.stdout), none, some sid⟩,
               [Event.write "/home/user/agent.py" code,
                Event.run "python3 /home/user/agent.py" req.timeout])
      match w.killOutcome with
      | some ke => (Except.error ke, createEvt :: body.2 ++ [Event.kill])
      | none => (Except.ok body.1, createEvt :: body.2 ++ [Event.kill])

/-- The control flow of `run_agent_in_sandbox` in
`src/examples/basic_sync.py`: no validation; create with timeout 120, write
the fixed program, run it with timeout 60; `finally`: kill. -/
def run_agent_in_sandbox (template_id oauth_token : String) (w : SandboxWorld) :
    Except PyError Unit × List Event :=
  let createEvt := Event.create template_id 120
    [("CLAUDE_CODE_OAUTH_TOKEN", oauth_token)]
  match w.createOutcome with
  | some e => (Except.error e, [createEvt])
  | none =>
    let body : Except PyError Unit × List Event :=
      match w.writeOutcome with
      | some e =>
        (Except.error e, [Event.write "/home/user/agent.py" basicSyncAgentCode])
      | none =>
        match w.runOutcome with
        | Except.error e =>
          (Except.error e,
           [Event.write "/home/user/agent.py" basicSyncAgentCode,
            Event.run "python3 /home/user/agent.py" 60])
        | Except.ok _ =>
          (Except.ok (),
           [Event.write "/home/user/agent.py" basicSyncAgentCode,
            Event.run "python3 /home/user/agent.py" 60])
    match w.killOutcome with
    | some ke => (Except.error ke, createEvt :: body.2 ++ [Event.kill])
    | none => (body.1, createEvt :: body.2 ++ [Event.kill])

/-- Modelled from the spec: the provisioning service's
`run(handle, command, timeout)` call is the sole suspension point; it waits
for the remote process, but for no more than `timeout` time units — if the
process has not completed by then it raises the SDK's timeout exception.
The timeout enforcement itself lives in the external SDK and is not part of
this repository's sources; this definition follows spec sections 5 and 6.
`completion` is the remote process's completion time (`none`: never
completes); the second component is the elapsed wait. -/
def providerRunStep (completion : Option Nat) (timeout : Nat) (r : RunResult) :
    Except PyError RunResult × Nat :=
  match completion with
  | none => (Except.error (PyError.timeoutError "command timed out"), timeout)
  | some d =>
    if d ≤ timeout then (Except.ok r, d)
    else (Except.error (PyError.timeoutError "command timed out"), timeout)

/-! ## Trace observations -/

def isKill : Event → Bool
  | Event.kill => true
  | _ => false

def isCreate : Event → Bool
  | Event.create _ _ _ => true
  | _ => false

/-- Number of release calls in a trace. -/
def countKill (tr : List Event) : Nat := (tr.filter isKill).length

/-- Number of provisioning calls in a trace. -/
def countCreate (tr : List Event) : Nat := (tr.filter isCreate).length

/-- Program texts uploaded into the execution context. -/
def writtenPrograms : List Event → List String
  | [] => []
  | Event.write _ content :: tr => content :: writtenPrograms tr
  | _ :: tr => writtenPrograms tr

/-- Timeouts passed to provisioning calls. -/
def createTimeouts : List Event → List Nat
  | [] => []
  | Event.create _ t _ :: tr => t :: createTimeouts tr
  | _ :: tr => createTimeouts tr

/-- Timeouts passed to execution calls. -/
def runTimeouts : List Event → List Nat
  | [] => []
  | Event.run _ t :: tr => t :: runTimeouts tr
  | _ :: tr => runTimeouts tr

/-- Environment variables passed to provisioning calls. -/
def createEnvLists : List Event → List (List (String × String))
  | [] => []
  | Event.create _ _ envs :: tr => envs :: createEnvLists tr
  | _ :: tr => createEnvLists tr

/-! ## Helper lemmas about the runners -/

theorem queryLoop_acc (acc : Option String) (msgs : List AgentMsg)
    (h : ∀ m ∈ msgs, m.hasResult = false) :
    msgs.foldl (fun a m => if m.hasResult then some m.result else a) acc = acc := by
  induction msgs generalizing acc with
  | nil => rfl
  | cons m ms ih =>
    simp only [List.foldl_cons]
    rw [if_neg (by simp [h m (by simp)])]
    exact ih acc (fun m hm => h m (by simp [hm]))

theorem queryLoop_none {msgs : List AgentMsg}
    (h : ∀ m ∈ msgs, m.hasResult = false) : queryLoop msgs = none :=
  queryLoop_acc none msgs h

/-! ## Claim theorems -/

/-- C1: for every prompt string — quotes, backslashes, control characters and
all — the text that `run_agent` splices into the generated program is a
syntactically well-formed Python double-quoted string literal (it parses
completely as one literal), the Python value of that literal is the inner
JSON document, and `json.loads` applied to it inside the generated program
yields exactly the original prompt: decode of encode is the identity. -/
theorem c1_prompt_roundtrip (prompt : String) :
    agentCode prompt = agentCodePre ++
      String.mk (jsonDumps (jsonDumps prompt.data)) ++ agentCodePost ∧
    pyDecodeLiteral (jsonDumps (jsonDumps prompt.data))
      = some (jsonDumps prompt.data) ∧
    jsonLoadsString (jsonDumps prompt.data) = some prompt.data :=
  ⟨rfl, pyDecode_doubleDumps prompt.data, jsonLoads_jsonDumps prompt.data⟩

/-- C2: whenever the configuration check passes and the execution context is
successfully created, the trace contains exactly one provisioning call and
exactly one release call, whatever happens in the upload, the execution, the
exit-code check or the release itself. -/
theorem c2_release_exactly_once (env : Env) (prompt : String) (timeout : Nat)
    (w : SandboxWorld) (htmpl : falsyEnv env.template_id = false)
    (htok : falsyEnv env.oauth_token = false) (hcr : w.createOutcome = none) :
    countCreate (run_agent env prompt timeout w).2 = 1 ∧
    countKill (run_agent env prompt timeout w).2 = 1 := by
  simp only [run_agent, htmpl, htok, hcr, Bool.false_eq_true, if_false]
  rcases hw : w.writeOutcome with _ | e
  · rcases hr : w.runOutcome with e | r
    · rcases hk : w.killOutcome with _ | ke <;>
        simp [countCreate, countKill, isCreate, isKill]
    · by_cases he : r.exit_code = 0 <;>
        rcases hk : w.killOutcome with _ | ke <;>
        simp [he, countCreate, countKill, isCreate, isKill]
  · rcases hk : w.killOutcome with _ | ke <;>
      simp [countCreate, countKill, isCreate, isKill]

theorem c2_witness :
    countCreate (run_agent ⟨some "tpl", some "tok"⟩ "p" 120
        ⟨none, none, Except.ok ⟨0, "4", ""⟩, none⟩).2 = 1 ∧
    countKill (run_agent ⟨some "tpl", some "tok"⟩ "p" 120
        ⟨none, none, Except.ok ⟨0, "4", ""⟩, none⟩).2 = 1 :=
  c2_release_exactly_once ⟨some "tpl", some "tok"⟩ "p" 120
    ⟨none, none, Except.ok ⟨0, "4", ""⟩, none⟩ rfl rfl rfl

/-- C3: when the template identifier or the credential token is absent,
`run_agent` raises `ValueError` (the configuration error) and the trace is
empty — no provisioning call is made and no execution context is created. -/
theorem c3_missing_config_no_provisioning (tmpl tok : Option String)
    (prompt : String) (timeout : Nat) (w : SandboxWorld)
    (habsent : tmpl = none ∨ tok = none) :
    (∃ m, (run_agent ⟨tmpl, tok⟩ prompt timeout w).1
        = Except.error (PyError.valueError m)) ∧
    (run_agent ⟨tmpl, tok⟩ prompt timeout w).2 = [] := by
  rcases habsent with rfl | rfl
  · exact ⟨⟨"E2B_TEMPLATE_ID not set. Run: ./setup.sh",
      by simp [run_agent, falsyEnv]⟩, by simp [run_agent, falsyEnv]⟩
  · by_cases h : falsyEnv tmpl = true
    · exact ⟨⟨"E2B_TEMPLATE_ID not set. Run: ./setup.sh",
        by simp [run_agent, h]⟩, by simp [run_agent, h]⟩
    · simp only [Bool.not_eq_true] at h
      refine ⟨⟨"CLAUDE_CODE_OAUTH_TOKEN not set. Run: ./setup.sh", ?_⟩, ?_⟩ <;>
      · simp only [run_agent, h, Bool.false_eq_true, if_false]
        simp [falsyEnv]

theorem c3_witness :
    (∃ m, (run_agent ⟨none, some "tok"⟩ "p" 120
        ⟨none, none, Except.ok ⟨0, "", ""⟩, none⟩).1
        = Except.error (PyError.valueError m)) ∧
    (run_agent ⟨none, some "tok"⟩ "p" 120
        ⟨none, none, Except.ok ⟨0, "", ""⟩, none⟩).2 = [] :=
  c3_missing_config_no_provisioning none (some "tok") "p" 120
    ⟨none, none, Except.ok ⟨0, "", ""⟩, none⟩ (Or.inl rfl)

/-- C4: when the injected program exits with a non-zero status, `run_agent`
raises `RuntimeError` (the execution error) whose message contains the
captured standard error verbatim, and the release call is still made exactly
once. -/
theorem c4_nonzero_exit (env : Env) (prompt : String) (timeout : Nat)
    (r : RunResult) (htmpl : falsyEnv env.template_id = false)
    (htok : falsyEnv env.oauth_token = false) (hexit : r.exit_code ≠ 0) :
    (run_agent env prompt timeout ⟨none, none, Except.ok r, none⟩).1
      = Except.error (PyError.runtimeError ("Agent failed: " ++ r.stderr)) ∧
    (∃ pre post, "Agent failed: " ++ r.stderr = pre ++ r.stderr ++ post) ∧
    countKill (run_agent env prompt timeout
        ⟨none, none, Except.ok r, none⟩).2 = 1 := by
  refine ⟨?_, ⟨"Agent failed: ", "", by simp⟩, ?_⟩ <;>
    simp [run_agent, htmpl, htok, hexit, countKill, isKill]

theorem c4_witness :
    (run_agent ⟨some "tpl", some "tok"⟩ "p" 120
        ⟨none, none, Except.ok ⟨1, "", "boom"⟩, none⟩).1
      = Except.error (PyError.runtimeError ("Agent failed: " ++ "boom")) ∧
    (∃ pre post, "Agent failed: " ++ "boom" = pre ++ "boom" ++ post) ∧
    countKill (run_agent ⟨some "tpl", some "tok"⟩ "p" 120
        ⟨none, none, Except.ok ⟨1, "", "boom"⟩, none⟩).2 = 1 :=
  c4_nonzero_exit ⟨some "tpl", some "tok"⟩ "p" 120 ⟨1, "", "boom"⟩ rfl rfl
    (by decide)

/-- C5: when the injected program exits with status zero, `run_agent` returns
the standard output stripped of surrounding whitespace. -/
theorem c5_zero_exit_trimmed_stdout (env : Env) (prompt : String)
    (timeout : Nat) (r : RunResult) (htmpl : falsyEnv env.template_id = false)
    (htok : falsyEnv env.oauth_token = false) (hexit : r.exit_code = 0) :
    (run_agent env prompt timeout ⟨none, none, Except.ok r, none⟩).1
      = Except.ok (pyStrip r.stdout) := by
  simp [run_agent, htmpl, htok, hexit]

theorem c5_witness :
    (run_agent ⟨some "tpl", some "tok"⟩ "p" 120
        ⟨none, none, Except.ok ⟨0, " 4\n", ""⟩, none⟩).1 = Except.ok "4" := by
  rw [c5_zero_exit_trimmed_stdout ⟨some "tpl", some "tok"⟩ "p" 120
    ⟨0, " 4\n", ""⟩ rfl rfl rfl]
  decide

/-- C6 counterexample: with a primary error from the execution step and a
failing release, the runner surfaces the release failure, not the primary
error — refuting the claim that the primary error is surfaced. -/
theorem c6_counterexample :
    (run_agent ⟨some "tpl", some "tok"⟩ "p" 120
        ⟨none, none, Except.error (PyError.sdkError "run exploded"),
         some (PyError.sdkError "kill failed")⟩).1
      = Except.error (PyError.sdkError "kill failed") ∧
    (run_agent ⟨some "tpl", some "tok"⟩ "p" 120
        ⟨none, none, Except.error (PyError.sdkError "run exploded"),
         some (PyError.sdkError "kill failed")⟩).1
      ≠ Except.error (PyError.sdkError "run exploded") := by
  constructor
  · rfl
  · decide

/-- C6 (amended): when the release of the execution context itself raises,
that release failure replaces any primary error as the exception surfaced to
the caller (Python `finally` semantics); the release call is still made
exactly once. -/
theorem c6_release_failure_masks (env : Env) (prompt : String) (timeout : Nat)
    (wo : Option PyError) (ro : Except PyError RunResult) (ke : PyError)
    (htmpl : falsyEnv env.template_id = false)
    (htok : falsyEnv env.oauth_token = false) :
    (run_agent env prompt timeout ⟨none, wo, ro, some ke⟩).1
      = Except.error ke ∧
    countKill (run_agent env prompt timeout ⟨none, wo, ro, some ke⟩).2 = 1 := by
  simp only [run_agent, htmpl, htok, Bool.false_eq_true, if_false]
  rcases wo with _ | e
  · rcases ro with e | r
    · simp [countKill, isKill]
    · by_cases he : r.exit_code = 0 <;> simp [he, countKill, isKill]
  · simp [countKill, isKill]

theorem c6_witness :
    (run_agent ⟨some "tpl", some "tok"⟩ "p" 120
        ⟨none, none, Except.ok ⟨0, "4", ""⟩,
         some (PyError.sdkError "kill failed")⟩).1
      = Except.error (PyError.sdkError "kill failed") ∧
    countKill (run_agent ⟨some "tpl", some "tok"⟩ "p" 120
        ⟨none, none, Except.ok ⟨0, "4", ""⟩,
         some (PyError.sdkError "kill failed")⟩).2 = 1 :=
  c6_release_failure_masks ⟨some "tpl", some "tok"⟩ "p" 120 none
    (Except.ok ⟨0, "4", ""⟩) (PyError.sdkError "kill failed") rfl rfl

/-- C7 counterexample: in `basic_sync.py` the provisioning call receives
timeout 120 while the execution call receives timeout 60 — so it is not the
case that in every run the execution timeout equals the provisioning
timeout. -/
theorem c7_counterexample :
    createTimeouts (run_agent_in_sandbox "tpl" "tok"
        ⟨none, none, Except.ok ⟨0, "", ""⟩, none⟩).2 = [120] ∧
    runTimeouts (run_agent_in_sandbox "tpl" "tok"
        ⟨none, none, Except.ok ⟨0, "", ""⟩, none⟩).2 = [60] ∧
    (120 : Nat) ≠ 60 := by
  refine ⟨rfl, rfl, by decide⟩

/-- C7 (amended): in the main task runner and in the API server every
execution call receives the same timeout as every provisioning call of the
same run — the task's single timeout budget; the `basic_sync` example
instead provisions with 120 and executes with 60. -/
theorem c7_timeout_budget (env : Env) (prompt : String) (timeout : Nat)
    (w w2 w3 : SandboxWorld) (cfg : ApiConfig) (req : AgentRequest)
    (sid : String) (tpl tok : String) :
    (∀ a ∈ createTimeouts (run_agent env prompt timeout w).2,
      ∀ b ∈ runTimeouts (run_agent env prompt timeout w).2, a = b) ∧
    (∀ a ∈ createTimeouts (api_run_agent cfg req sid w2).2,
      ∀ b ∈ runTimeouts (api_run_agent cfg req sid w2).2, a = b) ∧
    (∀ a ∈ createTimeouts (run_agent_in_sandbox tpl tok w3).2, a = 120) ∧
    (∀ b ∈ runTimeouts (run_agent_in_sandbox tpl tok w3).2, b = 60) := by
  refine ⟨?_, ?_, ?_, ?_⟩
  · by_cases h1 : falsyEnv env.template_id = true
    · simp [run_agent, h1, createTimeouts]
    · simp only [Bool.not_eq_true] at h1
      by_cases h2 : falsyEnv env.oauth_token = true
      · simp [run_agent, h1, h2, createTimeouts]
      · simp only [Bool.not_eq_true] at h2
        simp only [run_agent, h1, h2, Bool.false_eq_true, if_false]
        rcases hc : w.createOutcome with _ | e
        · rcases hw : w.writeOutcome with _ | e2
          · rcases hr : w.runOutcome with e3 | r
            · rcases hk : w.killOutcome with _ | e4 <;>
                simp [createTimeouts, runTimeouts]
            · by_cases he : r.exit_code = 0 <;>
                rcases hk : w.killOutcome with _ | e4 <;>
                simp [he, createTimeouts, runTimeouts]
          · rcases hk : w.killOutcome with _ | e4 <;>
              simp [createTimeouts, runTimeouts]
        · simp [createTimeouts, runTimeouts]
  · by_cases h1 : (falsyEnv cfg.template_id || falsyEnv cfg.oauth_token ||
        falsyEnv cfg.e2b_api_key) = true
    · simp [api_run_agent, h1, createTimeouts]
    · simp only [Bool.not_eq_true] at h1
      simp only [api_run_agent, h1, Bool.false_eq_true, if_false]
      rcases hc : w2.createOutcome with _ | e
      · rcases hw : w2.writeOutcome with _ | e2
        · rcases hr : w2.runOutcome with e3 | r
          · rcases hk : w2.killOutcome with _ | e4 <;>
              simp [createTimeouts, runTimeouts]
          · by_cases he : r.exit_code = 0 <;>
              rcases hk : w2.killOutcome with _ | e4 <;>
              simp [he, createTimeouts, runTimeouts]
        · rcases hk : w2.killOutcome with _ | e4 <;>
            simp [createTimeouts, runTimeouts]
      · simp [createTimeouts, runTimeouts]
  · simp only [run_agent_in_sandbox]
    rcases hc : w3.createOutcome with _ | e
    · rcases hw : w3.writeOutcome with _ | e2
      · rcases hr : w3.runOutcome with e3 | r
        · rcases hk : w3.killOutcome with _ | e4 <;>
            simp [createTimeouts, runTimeouts]
        · rcases hk : w3.killOutcome with _ | e4 <;>
            simp [createTimeouts, runTimeouts]
      · rcases hk : w3.killOutcome with _ | e4 <;>
          simp [createTimeouts, runTimeouts]
    · simp [createTimeouts, runTimeouts]
  · simp only [run_agent_in_sandbox]
    rcases hc : w3.createOutcome with _ | e
    · rcases hw : w3.writeOutcome with _ | e2
      · rcases hr : w3.runOutcome with e3 | r
        · rcases hk : w3.killOutcome with _ | e4 <;>
            simp [createTimeouts, runTimeouts]
        · rcases hk : w3.killOutcome with _ | e4 <;>
            simp [createTimeouts, runTimeouts]
      · rcases hk : w3.killOutcome with _ | e4 <;>
          simp [createTimeouts, runTimeouts]
    · simp [createTimeouts, runTimeouts]

theorem c7_witness :
    (120 : Nat) ∈ createTimeouts (run_agent ⟨some "tpl", some "tok"⟩ "p" 120
        ⟨none, none, Except.ok ⟨0, "", ""⟩, none⟩).2 ∧
    (120 : Nat) ∈ runTimeouts (run_agent ⟨some "tpl", some "tok"⟩ "p" 120
        ⟨none, none, Except.ok ⟨0, "", ""⟩, none⟩).2 ∧
    (120 : Nat) = 120 :=
  ⟨by decide, by decide,
    (c7_timeout_budget ⟨some "tpl", some "tok"⟩ "p" 120
      ⟨none, none, Except.ok ⟨0, "", ""⟩, none⟩
      ⟨none, none, Except.ok ⟨0, "", ""⟩, none⟩
      ⟨none, none, Except.ok ⟨0, "", ""⟩, none⟩
      ⟨some "tpl", some "tok", some "key"⟩ ⟨"p", "m", 120, []⟩ "sid"
      "tpl" "tok").1 120 (by decide) 120 (by decide)⟩

/-- C8: with the provider's run call modelled from the spec (the sole
suspension point waits at most the configured timeout and then raises the
SDK's timeout exception), a remote execution that never completes makes the
runner fail with the timeout execution error, the wait is bounded by the
configured timeout, and the execution context is still released exactly
once. -/
theorem c8_timeout_bound (env : Env) (prompt : String) (timeout : Nat)
    (r : RunResult) (htmpl : falsyEnv env.template_id = false)
    (htok : falsyEnv env.oauth_token = false) :
    (run_agent env prompt timeout
        ⟨none, none, (providerRunStep none timeout r).1, none⟩).1
      = Except.error (PyError.timeoutError "command timed out") ∧
    (providerRunStep none timeout r).2 ≤ timeout ∧
    countKill (run_agent env prompt timeout
        ⟨none, none, (providerRunStep none timeout r).1, none⟩).2 = 1 := by
  refine ⟨?_, ?_, ?_⟩ <;>
    simp [run_agent, htmpl, htok, providerRunStep, countKill, isKill]

theorem c8_witness :
    (run_agent ⟨some "tpl", some "tok"⟩ "p" 5
        ⟨none, none, (providerRunStep none 5 ⟨0, "", ""⟩).1, none⟩).1
      = Except.error (PyError.timeoutError "command timed out") ∧
    (providerRunStep none 5 ⟨0, "", ""⟩).2 ≤ 5 ∧
    countKill (run_agent ⟨some "tpl", some "tok"⟩ "p" 5
        ⟨none, none, (providerRunStep none 5 ⟨0, "", ""⟩).1, none⟩).2 = 1 :=
  c8_timeout_bound ⟨some "tpl", some "tok"⟩ "p" 5 ⟨0, "", ""⟩ rfl rfl

/-- C9: when no message of the agent stream carries a result field, the
generated program prints nothing, and a run in which the program then exits
with status zero returns the empty string as a successful result rather than
failing. -/
theorem c9_no_result_empty_output (env : Env) (prompt : String) (timeout : Nat)
    (msgs : List AgentMsg) (stderr : String)
    (htmpl : falsyEnv env.template_id = false)
    (htok : falsyEnv env.oauth_token = false)
    (hnores : ∀ m ∈ msgs, m.hasResult = false) :
    agentStdout msgs = "" ∧
    (run_agent env prompt timeout
        ⟨none, none, Except.ok ⟨0, agentStdout msgs, stderr⟩, none⟩).1
      = Except.ok "" := by
  have hout : agentStdout msgs = "" := by
    simp [agentStdout, queryLoop_none hnores]
  refine ⟨hout, ?_⟩
  simp [run_agent, htmpl, htok, hout]
  rfl

theorem c9_witness :
    agentStdout [⟨false, "unused"⟩] = "" ∧
    (run_agent ⟨some "tpl", some "tok"⟩ "p" 120
        ⟨none, none, Except.ok ⟨0, agentStdout [⟨false, "unused"⟩], ""⟩,
         none⟩).1 = Except.ok "" :=
  c9_no_result_empty_output ⟨some "tpl", some "tok"⟩ "p" 120
    [⟨false, "unused"⟩] "" rfl rfl
    (by intro m hm; simp at hm; rw [hm])

/-- C10: the program text uploaded into the execution context is identical
across runs that differ only in the credential tokens, and the token reaches
the execution context only as the value of its injected environment
variable. -/
theorem c10_token_noninterference (tmpl tok1 tok2 key1 key2 : Option String)
    (prompt : String) (timeout : Nat) (w : SandboxWorld) (req : AgentRequest)
    (sid : String)
    (htok1 : falsyEnv tok1 = false) (htok2 : falsyEnv tok2 = false)
    (hkey1 : falsyEnv key1 = false) (hkey2 : falsyEnv key2 = false) :
    writtenPrograms (run_agent ⟨tmpl, tok1⟩ prompt timeout w).2
      = writtenPrograms (run_agent ⟨tmpl, tok2⟩ prompt timeout w).2 ∧
    (∀ evs ∈ createEnvLists (run_agent ⟨tmpl, tok1⟩ prompt timeout w).2,
      evs = [("CLAUDE_CODE_OAUTH_TOKEN", tok1.getD "")]) ∧
    writtenPrograms (api_run_agent ⟨tmpl, tok1, key1⟩ req sid w).2
      = writtenPrograms (api_run_agent ⟨tmpl, tok2, key2⟩ req sid w).2 ∧
    (∀ evs ∈ createEnvLists (api_run_agent ⟨tmpl, tok1, key1⟩ req sid w).2,
      evs = [("CLAUDE_CODE_OAUTH_TOKEN", tok1.getD "")]) := by
  by_cases h1 : falsyEnv tmpl = true
  · refine ⟨?_, ?_, ?_, ?_⟩ <;>
      simp [run_agent, api_run_agent, h1, htok1, htok2, hkey1, hkey2,
        writtenPrograms, createEnvLists]
  · simp only [Bool.not_eq_true] at h1
    refine ⟨?_, ?_, ?_, ?_⟩
    · simp only [run_agent, h1, htok1, htok2, Bool.false_eq_true, if_false]
      rcases hc : w.createOutcome with _ | e
      · rcases hw : w.writeOutcome with _ | e2
        · rcases hr : w.runOutcome with e3 | r
          · rcases hk : w.killOutcome with _ | e4 <;>
              simp [writtenPrograms]
          · by_cases he : r.exit_code = 0 <;>
              rcases hk : w.killOutcome with _ | e4 <;>
              simp [he, writtenPrograms]
        · rcases hk : w.killOutcome with _ | e4 <;>
            simp [writtenPrograms]
      · simp [writtenPrograms]
    · simp only [run_agent, h1, htok1, Bool.false_eq_true, if_false]
      rcases hc : w.createOutcome with _ | e
      · rcases hw : w.writeOutcome with _ | e2
        · rcases hr : w.runOutcome with e3 | r
          · rcases hk : w.killOutcome with _ | e4 <;>
              simp [createEnvLists]
          · by_cases he : r.exit_code = 0 <;>
              rcases hk : w.killOutcome with _ | e4 <;>
              simp [he, createEnvLists]
        · rcases hk : w.killOutcome with _ | e4 <;>
            simp [createEnvLists]
      · simp [createEnvLists]
    · simp only [api_run_agent, h1, htok1, htok2, hkey1, hkey2,
        Bool.false_eq_true, Bool.false_or, if_false]
      rcases hc : w.createOutcome with _ | e
      · rcases hw : w.writeOutcome with _ | e2
        · rcases hr : w.runOutcome with e3 | r
          · rcases hk : w.killOutcome with _ | e4 <;>
              simp [writtenPrograms]
          · by_cases he : r.exit_code = 0 <;>
              rcases hk : w.killOutcome with _ | e4 <;>
              simp [he, writtenPrograms]
        · rcases hk : w.killOutcome with _ | e4 <;>
            simp [writtenPrograms]
      · simp [writtenPrograms]
    · simp only [api_run_agent, h1, htok1, hkey1, Bool.false_eq_true,
        Bool.false_or, if_false]
      rcases hc : w.createOutcome with _ | e
      · rcases hw : w.writeOutcome with _ | e2
        · rcases hr : w.runOutcome with e3 | r
          · rcases hk : w.killOutcome with _ | e4 <;>
              simp [createEnvLists]
          · by_cases he : r.exit_code = 0 <;>
              rcases hk : w.killOutcome with _ | e4 <;>
              simp [he, createEnvLists]
        · rcases hk : w.killOutcome with _ | e4 <;>
            simp [createEnvLists]
      · simp [createEnvLists]

theorem c10_witness :
    writtenPrograms (run_agent ⟨some "tpl", some "tokA"⟩ "p" 120
        ⟨none, none, Except.ok ⟨0, "", ""⟩, none⟩).2
      = writtenPrograms (run_agent ⟨some "tpl", some "tokB"⟩ "p" 120
        ⟨none, none, Except.ok ⟨0, "", ""⟩, none⟩).2 ∧
    (∀ evs ∈ createEnvLists (run_agent ⟨some "tpl", some "tokA"⟩ "p" 120
        ⟨none, none, Except.ok ⟨0, "", ""⟩, none⟩).2,
      evs = [("CLAUDE_CODE_OAUTH_TOKEN", (some "tokA").getD "")]) ∧
    writtenPrograms (api_run_agent ⟨some "tpl", some "tokA", some "keyA"⟩
        ⟨"p", "m", 120, ["Bash"]⟩ "sid"
        ⟨none, none, Except.ok ⟨0, "", ""⟩, none⟩).2
      = writtenPrograms (api_run_agent ⟨some "tpl", some "tokB", some "keyB"⟩
        ⟨"p", "m", 120, ["Bash"]⟩ "sid"
        ⟨none, none, Except.ok ⟨0, "", ""⟩, none⟩).2 ∧
    (∀ evs ∈ createEnvLists (api_run_agent ⟨some "tpl", some "tokA", some "keyA"⟩
        ⟨"p", "m", 120, ["Bash"]⟩ "sid"
        ⟨none, none, Except.ok ⟨0, "", ""⟩, none⟩).2,
      evs = [("CLAUDE_CODE_OAUTH_TOKEN", (some "tokA").getD "")]) :=
  c10_token_noninterference (some "tpl") (some "tokA") (some "tokB")
    (some "keyA") (some "keyB") "p" 120
    ⟨none, none, Except.ok ⟨0, "", ""⟩, none⟩ ⟨"p", "m", 120, ["Bash"]⟩ "sid"
    rfl rfl rfl rfl
